import Mathlib

/-!
Verification of the single-year single-energy-hub model builder
(`EnergyHub.py`) against its natural-language specification.

The source builds a Pyomo MILP model from an input-data module: it registers
index sets (with `within =` membership checks), parameters, decision
variables, and four constraint families.  We embed the builder shallowly:

* index sets are lists of naturals, parameters are total functions into `ℚ`;
* a variable assignment is a record of total functions into `ℚ`;
* each Pyomo constraint rule becomes a Lean function returning
  `Option Rel`, the relation the rule emits, already evaluated at an
  assignment (`none` when the Python rule returns `None`, in which case no
  constraint is emitted — the permissive reading of a rule with a missing
  `return`);
* feasibility of an assignment is the conjunction of the declared variable
  domains and of every emitted constraint relation.

Parts of the program that the specification describes but that are absent
from the source skeleton (storage dynamics, CRF computation, objective
accounting, the Pareto sweep) are modelled from the specification text and
are marked `Modelled from the spec:` in their doc comments.
-/

namespace EnergyHub

/-- Relational operator of an emitted linear constraint, already evaluated at
a variable assignment: an inequality `a ≤ b` or an equality `a = b`. -/
inductive Rel
  | le : ℚ → ℚ → Rel
  | eq : ℚ → ℚ → Rel
deriving DecidableEq

/-- Satisfaction of an emitted constraint relation. -/
def Rel.holds : Rel → Prop
  | .le a b => a ≤ b
  | .eq a b => a = b

instance (r : Rel) : Decidable r.holds := by
  cases r
  · exact inferInstanceAs (Decidable (_ ≤ _))
  · exact inferInstanceAs (Decidable (_ = _))

/-- The source's default value for the `BigM` parameter (line 88) is the
Python expression written with a caret, which in Python is bitwise XOR, not
exponentiation. -/
def BigM_default : ℕ := Nat.xor 10 5

/-- The input-data module consumed by `createModel`: the index sets and the
parameters registered on the Pyomo model, exactly those read from `self.inp`
in the source.  Set elements are coded as naturals; parameters are total
functions (Pyomo key-coverage checking of the underlying dictionaries is not
modelled).  `BigM` carries the source's default value. -/
structure InputData where
  Time : List ℕ := []
  First_hour : List ℕ := []
  Inputs : List ℕ := []
  Solar_inputs : List ℕ := []
  Inputs_wo_grid : List ℕ := []
  Dispatchable_Tech : List ℕ := []
  CHP_Tech : List ℕ := []
  Outputs : List ℕ := []
  Loads : ℕ → ℕ → ℚ := fun _ _ => 0
  Number_of_days : ℕ → ℚ := fun _ => 0
  Cmatrix : ℕ → ℕ → ℚ := fun _ _ => 0
  Storage_max_charge : ℕ → ℚ := fun _ => 0
  Storage_max_discharge : ℕ → ℚ := fun _ => 0
  Storage_standing_losses : ℕ → ℚ := fun _ => 0
  Storage_charging_eff : ℕ → ℚ := fun _ => 0
  Storage_discharging_eff : ℕ → ℚ := fun _ => 0
  Storage_max_cap : ℕ → ℚ := fun _ => 0
  Lifetime_tech : ℕ → ℕ := fun _ => 0
  Lifetime_stor : ℕ → ℕ := fun _ => 0
  Network_efficiency : ℕ → ℚ := fun _ => 0
  Network_length : ℕ → ℚ := fun _ => 0
  Network_lifetime : ℕ := 0
  Operating_costs : ℕ → ℚ := fun _ => 0
  Linear_inv_costs : ℕ → ℚ := fun _ => 0
  Fixed_inv_costs : ℕ → ℚ := fun _ => 0
  Linear_stor_costs : ℕ → ℚ := fun _ => 0
  Fixed_stor_costs : ℕ → ℚ := fun _ => 0
  Net_inv_cost_per_m : ℚ := 0
  FiT : ℕ → ℚ := fun _ => 0
  Interest_rate : ℚ := 0
  Carbon_factors : ℕ → ℚ := fun _ => 0
  Roof_area : ℚ := 0
  P_solar : ℕ → ℕ → ℚ := fun _ _ => 0
  BigM : ℚ := (BigM_default : ℚ)

/-- A valuation of every decision variable declared by `createModel`
(lines 96–115 of the source). -/
structure Assignment where
  P : ℕ → ℕ → ℚ := fun _ _ => 0
  P_export : ℕ → ℕ → ℚ := fun _ _ => 0
  y : ℕ → ℚ := fun _ => 0
  Capacity : ℕ → ℚ := fun _ => 0
  Qin : ℕ → ℕ → ℚ := fun _ _ => 0
  Qout : ℕ → ℕ → ℚ := fun _ _ => 0
  E : ℕ → ℕ → ℚ := fun _ _ => 0
  y_stor : ℕ → ℚ := fun _ => 0
  Storage_cap : ℕ → ℚ := fun _ => 0
  Operating_cost : ℚ := 0
  Income_via_exports : ℚ := 0
  investment_cost : ℚ := 0
  Total_cost : ℚ := 0
  Total_carbon : ℚ := 0

/-- Source lines 122–123: the load-balance rule returns the equality
`Σ_inp P[t,inp]·Cmatrix[out,inp] + Qout[t,out] − Qin[t,out] =
Loads[t,out] + P_export[t,out]`. -/
def Load_balance_rule (d : InputData) (σ : Assignment) (t out : ℕ) :
    Option Rel :=
  some (.eq ((d.Inputs.map fun inp => σ.P t inp * d.Cmatrix out inp).sum
      + σ.Qout t out - σ.Qin t out)
    (d.Loads t out + σ.P_export t out))

/-- Source lines 126–127: dispatchable output is bounded by installed
capacity, `P[t,disp]·Cmatrix[out,disp] ≤ Capacity[disp]`. -/
def Capacity_constraint_rule (d : InputData) (σ : Assignment)
    (t disp out : ℕ) : Option Rel :=
  some (.le (σ.P t disp * d.Cmatrix out disp) (σ.Capacity disp))

/-- Source lines 130–131: solar input tracks the availability profile,
`P[t,sol] = P_solar[t,sol]·Capacity[sol]`. -/
def Solar_input_rule (d : InputData) (σ : Assignment) (t sol out : ℕ) :
    Option Rel :=
  some (.eq (σ.P t sol) (d.P_solar t sol * σ.Capacity sol))

/-- Source lines 134–135: the big-M installation-linking rule.  The Python
body evaluates the comparison `m.Capacity[inp] <= m.BigM * m.y[inp]` but has
no `return` statement, so the function returns `None` and no constraint is
emitted. -/
def Fixed_cost_constr_rule (d : InputData) (σ : Assignment) (inp : ℕ) :
    Option Rel :=
  let _ := Rel.le (σ.Capacity inp) (d.BigM * σ.y inp)
  none

/-- All constraint relations emitted by the four `pe.Constraint` components
of the source (lines 124, 128, 132, 136), each rule instantiated over its
declared index sets. -/
def sourceConstraints (d : InputData) (σ : Assignment) : List Rel :=
  (d.Time.flatMap fun t =>
    d.Outputs.filterMap fun out => Load_balance_rule d σ t out)
  ++ (d.Time.flatMap fun t => d.Dispatchable_Tech.flatMap fun disp =>
    d.Outputs.filterMap fun out => Capacity_constraint_rule d σ t disp out)
  ++ (d.Time.flatMap fun t => d.Solar_inputs.flatMap fun sol =>
    d.Outputs.filterMap fun out => Solar_input_rule d σ t sol out)
  ++ (d.Inputs.filterMap fun inp => Fixed_cost_constr_rule d σ inp)

/-- The variable-domain conditions declared with the variables
(lines 96–115): continuous variables are non-negative over their index sets,
`y` is binary; the five scalar objective-component variables are
non-negative. -/
def domainOk (d : InputData) (σ : Assignment) : Prop :=
  (∀ t ∈ d.Time, ∀ inp ∈ d.Inputs, 0 ≤ σ.P t inp) ∧
  (∀ t ∈ d.Time, ∀ out ∈ d.Outputs,
    0 ≤ σ.P_export t out ∧ 0 ≤ σ.Qin t out ∧ 0 ≤ σ.Qout t out ∧
    0 ≤ σ.E t out) ∧
  (∀ inp ∈ d.Inputs, (σ.y inp = 0 ∨ σ.y inp = 1) ∧ 0 ≤ σ.Capacity inp) ∧
  (∀ out ∈ d.Outputs, 0 ≤ σ.y_stor out ∧ 0 ≤ σ.Storage_cap out) ∧
  0 ≤ σ.Operating_cost ∧ 0 ≤ σ.Income_via_exports ∧
  0 ≤ σ.investment_cost ∧ 0 ≤ σ.Total_cost ∧ 0 ≤ σ.Total_carbon

instance (d : InputData) (σ : Assignment) : Decidable (domainOk d σ) := by
  unfold domainOk; infer_instance

/-- Feasibility for the model actually built by the source: the variable
domains hold and every emitted constraint relation holds. -/
def feasible (d : InputData) (σ : Assignment) : Prop :=
  domainOk d σ ∧ ∀ r ∈ sourceConstraints d σ, r.holds

instance (d : InputData) (σ : Assignment) : Decidable (feasible d σ) := by
  unfold feasible; infer_instance

/-- The built model handle: the registered data, from which the structural
counts below are derived. -/
structure Model where
  data : InputData

/-- Set construction, source lines 33–40: each set is registered in order and
a `within =` declaration makes Pyomo verify membership of every element,
aborting construction on a violation.  `Time`, `Inputs`, `Inputs_wo_grid`
and `Outputs` carry no `within =` restriction. -/
def createModel (d : InputData) : Except String Model :=
  if !(d.First_hour.all fun t => d.Time.contains t) then
    .error "First_hour"
  else if !(d.Solar_inputs.all fun i => d.Inputs.contains i) then
    .error "Solar_inputs"
  else if !(d.Dispatchable_Tech.all fun i => d.Inputs.contains i) then
    .error "Dispatchable_Tech"
  else if !(d.CHP_Tech.all fun i => d.Inputs.contains i) then
    .error "CHP_Tech"
  else
    .ok ⟨d⟩

/-- Whether model construction completes. -/
def buildSucceeds (d : InputData) : Bool :=
  match createModel d with
  | .ok _ => true
  | .error _ => false

/-- The four `within =` membership checks of set construction, as one
boolean; it does not inspect `Inputs_wo_grid` or any numeric parameter. -/
def subsetChecksB (d : InputData) : Bool :=
  (d.First_hour.all fun t => d.Time.contains t) &&
  (d.Solar_inputs.all fun i => d.Inputs.contains i) &&
  (d.Dispatchable_Tech.all fun i => d.Inputs.contains i) &&
  (d.CHP_Tech.all fun i => d.Inputs.contains i)

/-- Number of scalar decision variables declared by `createModel`
(lines 96–115) over the registered index sets. -/
def numVars (m : Model) : ℕ :=
  m.data.Time.length * m.data.Inputs.length
    + m.data.Time.length * m.data.Outputs.length
    + 2 * m.data.Inputs.length
    + 3 * m.data.Time.length * m.data.Outputs.length
    + 2 * m.data.Outputs.length
    + 5

/-- Number of constraint relations emitted by the four constraint components:
the fourth family (big-M linking) emits none, since its rule returns
`None`. -/
def numConstraints (m : Model) : ℕ :=
  m.data.Time.length * m.data.Outputs.length
    + m.data.Time.length * m.data.Dispatchable_Tech.length
        * m.data.Outputs.length
    + m.data.Time.length * m.data.Solar_inputs.length
        * m.data.Outputs.length

/-- Modelled from the spec: the Capital Recovery Factor,
`CRF = i·(1+i)^n / ((1+i)^n − 1)` with the degenerate case `i = 0` handled
as the limit `CRF = 1/n`.  The source only declares the CRF parameters
(lines 76–78) and never computes them; the formula is the specification's
(§3, §4.1). -/
def CRF (i : ℚ) (n : ℕ) : ℚ :=
  if i = 0 then 1 / (n : ℚ) else i * (1 + i) ^ n / ((1 + i) ^ n - 1)

/-- Modelled from the spec: the per-technology CRF, computed from the
interest rate and the technology lifetime. -/
def CRF_tech (d : InputData) (inp : ℕ) : ℚ :=
  CRF d.Interest_rate (d.Lifetime_tech inp)

/-- Modelled from the spec: the per-storage CRF, computed from the interest
rate and the storage lifetime. -/
def CRF_stor (d : InputData) (s : ℕ) : ℚ :=
  CRF d.Interest_rate (d.Lifetime_stor s)

/-- Modelled from the spec: the network CRF, computed from the interest rate
and the network lifetime. -/
def CRF_network (d : InputData) : ℚ :=
  CRF d.Interest_rate d.Network_lifetime

/-- Modelled from the spec (§4.4): the operating-cost expression
`Σ_t Σ_inp Number_of_days[t]·Operating_costs[inp]·P[t,inp]`. -/
def Operating_cost_expr (d : InputData) (σ : Assignment) : ℚ :=
  (d.Time.map fun t =>
    (d.Inputs.map fun inp =>
      d.Number_of_days t * d.Operating_costs inp * σ.P t inp).sum).sum

/-- Modelled from the spec (§4.4): the export-income expression
`Σ_t Σ_s Number_of_days[t]·FiT[s]·P_export[t,s]`. -/
def Income_via_exports_expr (d : InputData) (σ : Assignment) : ℚ :=
  (d.Time.map fun t =>
    (d.Outputs.map fun s =>
      d.Number_of_days t * d.FiT s * σ.P_export t s).sum).sum

/-- Modelled from the spec (§4.4): the annualised investment-cost
expression.  The network term sums the per-service network lengths, since
the source registers `Network_length` over `Outputs` (line 63) while the
spec writes a single `Net_inv_cost_per_m·Network_length·CRF_network`
product. -/
def investment_cost_expr (d : InputData) (σ : Assignment) : ℚ :=
  (d.Inputs.map fun inp =>
    (d.Linear_inv_costs inp * σ.Capacity inp
      + d.Fixed_inv_costs inp * σ.y inp) * CRF_tech d inp).sum
  + (d.Outputs.map fun s =>
    (d.Linear_stor_costs s * σ.Storage_cap s
      + d.Fixed_stor_costs s * σ.y_stor s) * CRF_stor d s).sum
  + (d.Outputs.map fun s =>
    d.Net_inv_cost_per_m * d.Network_length s * CRF_network d).sum

/-- Modelled from the spec (§4.4): the total-carbon expression
`Σ_t Σ_inp Number_of_days[t]·Carbon_factors[inp]·P[t,inp]`. -/
def Total_carbon_expr (d : InputData) (σ : Assignment) : ℚ :=
  (d.Time.map fun t =>
    (d.Inputs.map fun inp =>
      d.Number_of_days t * d.Carbon_factors inp * σ.P t inp).sum).sum

/-- Modelled from the spec (§4.4): the objective-accounting equality
constraints that equate each scalar objective-component variable to its
defining expression, with
`Total_cost = investment_cost + Operating_cost − Income_via_exports`. -/
def objectiveAccountingConstraints (d : InputData) (σ : Assignment) :
    List Rel :=
  [ .eq σ.Operating_cost (Operating_cost_expr d σ),
    .eq σ.Income_via_exports (Income_via_exports_expr d σ),
    .eq σ.investment_cost (investment_cost_expr d σ),
    .eq σ.Total_cost
      (σ.investment_cost + σ.Operating_cost - σ.Income_via_exports),
    .eq σ.Total_carbon (Total_carbon_expr d σ) ]

/-- Modelled from the spec (§4.3): the last hour of the typical day that
hour `t` starts, used for the storage wraparound at each `First_hour`: the
hour just before the next first hour, or the last modelled hour when `t`
lies in the final typical day. -/
def dayEnd (d : InputData) (t : ℕ) : ℕ :=
  match d.First_hour.filter (fun h => decide (t < h)) with
  | [] => d.Time.foldr max 0
  | h :: hs => hs.foldr min h - 1

/-- Modelled from the spec (§4.3): the state-of-charge continuity relation
at hour `t` for service `s`; at a `First_hour` the predecessor wraps to the
end of the typical day, otherwise it is `t − 1`. -/
def Storage_balance_rel (d : InputData) (σ : Assignment) (t s : ℕ) : Rel :=
  .eq (σ.E t s)
    (σ.E (if t ∈ d.First_hour then dayEnd d t else t - 1) s
        * (1 - d.Storage_standing_losses s)
      + σ.Qin t s * d.Storage_charging_eff s
      - σ.Qout t s / d.Storage_discharging_eff s)

/-- Modelled from the spec (§4.3): the storage-dynamics constraint family —
state-of-charge continuity with wraparound, charge/discharge rate bounds,
the state-of-charge capacity bound `E[t,s] ≤ Storage_cap[s]` and the
installed-capacity bound `Storage_cap[s] ≤ Storage_max_cap[s]`. -/
def storageDynamicsConstraints (d : InputData) (σ : Assignment) :
    List Rel :=
  (d.Time.flatMap fun t => d.Outputs.map fun s =>
    Storage_balance_rel d σ t s)
  ++ (d.Time.flatMap fun t => d.Outputs.map fun s =>
    .le (σ.Qin t s) (d.Storage_max_charge s * σ.Storage_cap s))
  ++ (d.Time.flatMap fun t => d.Outputs.map fun s =>
    .le (σ.Qout t s) (d.Storage_max_discharge s * σ.Storage_cap s))
  ++ (d.Time.flatMap fun t => d.Outputs.map fun s =>
    .le (σ.E t s) (σ.Storage_cap s))
  ++ (d.Outputs.map fun s =>
    .le (σ.Storage_cap s) (d.Storage_max_cap s))

/-- Modelled from the spec (§4.5): one ε-constraint solve of the Pareto
sweep — the least `Total_cost` among the candidate outcomes
(cost, carbon pairs) whose `Total_carbon` does not exceed the bound `ε`;
`⊤` when no candidate satisfies the bound. -/
def optCost (pts : List (ℚ × ℚ)) (ε : ℚ) : WithTop ℚ :=
  ((pts.filter fun p => decide (p.2 ≤ ε)).map Prod.fst).minimum

/-- Modelled from the spec (§4.5): the carbon bounds of the Pareto sweep,
partitioning `[cmin, cmax]` into `n − 1` equal steps, listed from the
loosest bound `cmax` down to the tightest bound `cmin`. -/
def epsValues (cmin cmax : ℚ) (n : ℕ) : List ℚ :=
  (List.range n).map fun k =>
    cmax - (k : ℚ) * (cmax - cmin) / ((n : ℚ) - 1)

/-- The same input data with the `Inputs_wo_grid` set replaced. -/
def withInputsWoGrid (d : InputData) (W : List ℕ) : InputData :=
  { d with Inputs_wo_grid := W }

/-- The same input data with its numeric parameters (storage efficiencies,
interest rate, loads) replaced. -/
def withNumerics (d : InputData) (ceff deff : ℕ → ℚ) (ir : ℚ)
    (lo : ℕ → ℕ → ℚ) : InputData :=
  { d with
    Storage_charging_eff := ceff
    Storage_discharging_eff := deff
    Interest_rate := ir
    Loads := lo }

/-- A one-hour, one-carrier, one-service instance (grid supplying an
electric load of 10 at operating cost 0.2 and carbon factor 0.1), the
end-to-end scenario of spec §8. -/
def exD1 : InputData where
  Time := [0]
  First_hour := [0]
  Inputs := [0]
  Dispatchable_Tech := [0]
  Outputs := [0]
  Loads := fun _ _ => 10
  Number_of_days := fun _ => 1
  Cmatrix := fun _ _ => 1
  Operating_costs := fun _ => 1 / 5
  Carbon_factors := fun _ => 1 / 10

/-- An assignment for `exD1` meeting the load with the grid while the
installation flag `y` stays 0 and the capacity is 50. -/
def exσ1 : Assignment where
  P := fun _ _ => 10
  Capacity := fun _ => 50
  Operating_cost := 2
  Total_cost := 2
  Total_carbon := 1

/-- A two-hour single-day instance with one storage-bearing service and
unit discharging efficiency. -/
def exD4 : InputData where
  Time := [0, 1]
  First_hour := [0]
  Outputs := [0]
  Storage_discharging_eff := fun _ => 1

/-- The all-zero assignment. -/
def exσ4 : Assignment where
  P := fun _ _ => 0

/-- Data violating the claimed numeric-range validation: a storage charging
efficiency of 2 (above 1) and a negative interest rate. -/
def invalidEffData : InputData where
  Time := [0]
  Inputs := [0]
  Outputs := [0]
  Storage_charging_eff := fun _ => 2
  Interest_rate := -(1 / 2)

/-- Data whose `Inputs_wo_grid` set is not a subset of `Inputs`. -/
def exWData : InputData where
  Time := [0]
  Inputs := [0]
  Outputs := [0]
  Inputs_wo_grid := [99]

/-- Data whose `Solar_inputs` set is not a subset of `Inputs`. -/
def badSolarData : InputData where
  Time := [0]
  Inputs := [0]
  Outputs := [0]
  Solar_inputs := [5]


/-- The spec §8 scenario assignment `exσ1` is feasible for `exD1` in the
model the source actually builds. -/
theorem exD1_feasible : feasible exD1 exσ1 := by
  constructor
  · simp [domainOk, exD1, exσ1]
  · simp [sourceConstraints, exD1, exσ1, Load_balance_rule,
      Capacity_constraint_rule, Solar_input_rule, Fixed_cost_constr_rule,
      Rel.holds]
    norm_num

/-- Model construction succeeds exactly when the four `within =` membership
checks of set construction pass. -/
theorem buildSucceeds_eq_subsetChecksB (d : InputData) :
    buildSucceeds d = subsetChecksB d := by
  unfold buildSucceeds createModel subsetChecksB
  cases h1 : (d.First_hour.all fun t => d.Time.contains t) <;>
    cases h2 : (d.Solar_inputs.all fun i => d.Inputs.contains i) <;>
      cases h3 : (d.Dispatchable_Tech.all fun i => d.Inputs.contains i) <;>
        cases h4 : (d.CHP_Tech.all fun i => d.Inputs.contains i) <;>
          simp [h1, h2, h3, h4]

/-- A `filterMap` whose function always emits keeps the list length. -/
theorem length_filterMap_all_some {α β : Type} (l : List α) (f : α → β) :
    (l.filterMap fun a => some (f a)).length = l.length := by
  induction l with
  | nil => rfl
  | cons a l ih => simp [List.filterMap_cons, ih]

/-- A `filterMap` whose function never emits produces the empty list. -/
theorem length_filterMap_all_none {α β : Type} (l : List α) :
    (l.filterMap fun _ => (none : Option β)).length = 0 := by
  induction l with
  | nil => rfl
  | cons a l ih => simp [List.filterMap_cons, ih]

/-- Length of a `flatMap` whose blocks all have the same length. -/
theorem length_flatMap_eq_mul {α β : Type} (l : List α) (f : α → List β)
    (c : ℕ) (h : ∀ a, (f a).length = c) :
    (l.flatMap f).length = l.length * c := by
  induction l with
  | nil => simp
  | cons a l ih => simp [List.flatMap_cons, h, ih]; ring

/-- The number of emitted constraints is a function of the index-set sizes
alone — the same for every assignment — and the big-M family contributes
none of them. -/
theorem length_sourceConstraints (d : InputData) (σ : Assignment) :
    (sourceConstraints d σ).length = numConstraints ⟨d⟩ := by
  unfold sourceConstraints numConstraints
  rw [List.length_append, List.length_append, List.length_append]
  have hA : (d.Time.flatMap fun t =>
      d.Outputs.filterMap fun out => Load_balance_rule d σ t out).length
      = d.Time.length * d.Outputs.length := by
    refine length_flatMap_eq_mul _ _ _ fun t => ?_
    simp only [Load_balance_rule]
    exact length_filterMap_all_some _ _
  have hB : (d.Time.flatMap fun t => d.Dispatchable_Tech.flatMap fun disp =>
      d.Outputs.filterMap fun out =>
        Capacity_constraint_rule d σ t disp out).length
      = d.Time.length * (d.Dispatchable_Tech.length * d.Outputs.length) := by
    refine length_flatMap_eq_mul _ _ _ fun t => ?_
    refine length_flatMap_eq_mul _ _ _ fun disp => ?_
    simp only [Capacity_constraint_rule]
    exact length_filterMap_all_some _ _
  have hC : (d.Time.flatMap fun t => d.Solar_inputs.flatMap fun sol =>
      d.Outputs.filterMap fun out => Solar_input_rule d σ t sol out).length
      = d.Time.length * (d.Solar_inputs.length * d.Outputs.length) := by
    refine length_flatMap_eq_mul _ _ _ fun t => ?_
    refine length_flatMap_eq_mul _ _ _ fun sol => ?_
    simp only [Solar_input_rule]
    exact length_filterMap_all_some _ _
  have hD : (d.Inputs.filterMap fun inp =>
      Fixed_cost_constr_rule d σ inp).length = 0 := by
    simp only [Fixed_cost_constr_rule]
    exact length_filterMap_all_none _
  rw [hA, hB, hC, hD]
  ring

/-- Claim C1: the claim states that the installation-linking generator
returns the inequality `Capacity[inp] ≤ BigM·y[inp]` for every Carrier, so
that `y[inp] = 0` forces `Capacity[inp] = 0` in any feasible solution.  The
source's rule has no `return` statement, so it yields `None` for every
input and no big-M constraint is emitted: concretely, the assignment
`exσ1` is feasible for `exD1` although `y = 0` and `Capacity = 50 > 0`,
refuting the claimed linking on the code as written (the code bug flagged
in spec §9). -/
theorem Fixed_cost_constr_emits_nothing :
    (∀ (d : InputData) (σ : Assignment) (inp : ℕ),
      Fixed_cost_constr_rule d σ inp = none) ∧
    feasible exD1 exσ1 ∧ exσ1.y 0 = 0 ∧ exσ1.Capacity 0 = 50 :=
  ⟨fun _ _ _ => rfl, exD1_feasible, rfl, rfl⟩

/-- Claim C2: for every TimeStep `t` and Service `out`, the built model
contains the load-balance equality
`Σ_inp P[t,inp]·Cmatrix[out,inp] + Qout[t,out] − Qin[t,out] =
Loads[t,out] + P_export[t,out]`, and every feasible assignment satisfies it
exactly. -/
theorem Load_balance_exact (d : InputData) (σ : Assignment)
    (hfeas : feasible d σ) :
    ∀ t ∈ d.Time, ∀ out ∈ d.Outputs,
      (Rel.eq ((d.Inputs.map fun inp => σ.P t inp * d.Cmatrix out inp).sum
          + σ.Qout t out - σ.Qin t out)
        (d.Loads t out + σ.P_export t out)) ∈ sourceConstraints d σ ∧
      (d.Inputs.map fun inp => σ.P t inp * d.Cmatrix out inp).sum
          + σ.Qout t out - σ.Qin t out
        = d.Loads t out + σ.P_export t out := by
  intro t ht out hout
  have hmem : (Rel.eq ((d.Inputs.map fun inp =>
      σ.P t inp * d.Cmatrix out inp).sum
        + σ.Qout t out - σ.Qin t out)
      (d.Loads t out + σ.P_export t out)) ∈ sourceConstraints d σ := by
    unfold sourceConstraints
    refine List.mem_append_left _ (List.mem_append_left _
      (List.mem_append_left _ ?_))
    refine List.mem_flatMap.mpr ⟨t, ht, ?_⟩
    exact List.mem_filterMap.mpr ⟨out, hout, rfl⟩
  exact ⟨hmem, hfeas.2 _ hmem⟩

/-- Witness for claim C2 at the spec §8 scenario: the scenario assignment
is feasible and its load balance holds exactly at the only
TimeStep–Service pair. -/
theorem Load_balance_exact_witness :
    feasible exD1 exσ1 ∧
    ((exD1.Inputs.map fun inp => exσ1.P 0 inp * exD1.Cmatrix 0 inp).sum
        + exσ1.Qout 0 0 - exσ1.Qin 0 0
      = exD1.Loads 0 0 + exσ1.P_export 0 0) :=
  ⟨exD1_feasible,
    (Load_balance_exact exD1 exσ1 exD1_feasible 0 (by decide) 0
      (by decide)).2⟩

/-- Claim C3: under the variable domains of the source and the
objective-accounting equality constraints (modelled from spec §4.4, the
source declares the five scalar variables but never wires them), each
scalar objective component equals its accounting expression, in particular
`Total_cost = investment_cost + Operating_cost − Income_via_exports`, and
all five components are non-negative. -/
theorem objective_components_defined (d : InputData) (σ : Assignment)
    (hdom : domainOk d σ)
    (hacc : ∀ r ∈ objectiveAccountingConstraints d σ, r.holds) :
    σ.Total_cost = σ.investment_cost + σ.Operating_cost
        - σ.Income_via_exports ∧
    σ.Operating_cost = Operating_cost_expr d σ ∧
    σ.Income_via_exports = Income_via_exports_expr d σ ∧
    σ.investment_cost = investment_cost_expr d σ ∧
    σ.Total_carbon = Total_carbon_expr d σ ∧
    0 ≤ σ.Operating_cost ∧ 0 ≤ σ.Income_via_exports ∧
    0 ≤ σ.investment_cost ∧ 0 ≤ σ.Total_cost ∧ 0 ≤ σ.Total_carbon := by
  simp only [objectiveAccountingConstraints, List.mem_cons,
    List.not_mem_nil, or_false, forall_eq_or_imp, forall_eq, Rel.holds]
    at hacc
  obtain ⟨hop, hinc, hinv, htot, hcar⟩ := hacc
  obtain ⟨-, -, -, -, hO, hI, hV, hT, hC⟩ := hdom
  exact ⟨htot, hop, hinc, hinv, hcar, hO, hI, hV, hT, hC⟩

/-- Witness for claim C3 at the spec §8 scenario, where the accounting
constraints pin `Operating_cost = 2`, `Total_cost = 2` and
`Total_carbon = 1`. -/
theorem objective_components_defined_witness :
    domainOk exD1 exσ1 ∧
    (∀ r ∈ objectiveAccountingConstraints exD1 exσ1, r.holds) ∧
    exσ1.Total_cost = exσ1.investment_cost + exσ1.Operating_cost
        - exσ1.Income_via_exports ∧
    0 ≤ exσ1.Total_cost := by
  have hdom : domainOk exD1 exσ1 := exD1_feasible.1
  have hacc : ∀ r ∈ objectiveAccountingConstraints exD1 exσ1, r.holds := by
    simp [objectiveAccountingConstraints, exD1, exσ1, Operating_cost_expr,
      Income_via_exports_expr, investment_cost_expr, Total_carbon_expr,
      Rel.holds, CRF_tech, CRF_stor, CRF_network, CRF]
    norm_num
  have h := objective_components_defined exD1 exσ1 hdom hacc
  exact ⟨hdom, hacc, h.1, h.2.2.2.2.2.2.2.2.1⟩

/-- Claim C4: under the variable domains of the source and the
storage-dynamics constraints (modelled from spec §4.3, the source declares
the storage variables but emits no storage constraint), every TimeStep not
in `First_hour` satisfies state-of-charge continuity
`E[t,s] = E[t−1,s]·(1 − losses[s]) + Qin[t,s]·ceff[s] − Qout[t,s]/deff[s]`
(with wraparound at each `First_hour` built into the constraint family),
and at every TimeStep `0 ≤ E[t,s] ≤ Storage_cap[s] ≤ Storage_max_cap[s]`. -/
theorem storage_dynamics_invariants (d : InputData) (σ : Assignment)
    (hdom : domainOk d σ)
    (hstor : ∀ r ∈ storageDynamicsConstraints d σ, r.holds) :
    (∀ t ∈ d.Time, t ∉ d.First_hour → ∀ s ∈ d.Outputs,
      σ.E t s = σ.E (t - 1) s * (1 - d.Storage_standing_losses s)
        + σ.Qin t s * d.Storage_charging_eff s
        - σ.Qout t s / d.Storage_discharging_eff s) ∧
    (∀ t ∈ d.Time, ∀ s ∈ d.Outputs,
      0 ≤ σ.E t s ∧ σ.E t s ≤ σ.Storage_cap s ∧
      σ.Storage_cap s ≤ d.Storage_max_cap s) := by
  constructor
  · intro t ht htf s hs
    have hmem : Storage_balance_rel d σ t s
        ∈ storageDynamicsConstraints d σ := by
      unfold storageDynamicsConstraints
      refine List.mem_append_left _ (List.mem_append_left _
        (List.mem_append_left _ (List.mem_append_left _ ?_)))
      refine List.mem_flatMap.mpr ⟨t, ht, ?_⟩
      exact List.mem_map.mpr ⟨s, hs, rfl⟩
    have h := hstor _ hmem
    simp only [Storage_balance_rel] at h
    rw [if_neg htf] at h
    exact h
  · intro t ht s hs
    refine ⟨(hdom.2.1 t ht s hs).2.2.2, ?_, ?_⟩
    · have hmem : (Rel.le (σ.E t s) (σ.Storage_cap s))
          ∈ storageDynamicsConstraints d σ := by
        unfold storageDynamicsConstraints
        refine List.mem_append_left _ (List.mem_append_right _ ?_)
        refine List.mem_flatMap.mpr ⟨t, ht, ?_⟩
        exact List.mem_map.mpr ⟨s, hs, rfl⟩
      exact hstor _ hmem
    · have hmem : (Rel.le (σ.Storage_cap s) (d.Storage_max_cap s))
          ∈ storageDynamicsConstraints d σ := by
        unfold storageDynamicsConstraints
        refine List.mem_append_right _ ?_
        exact List.mem_map.mpr ⟨s, hs, rfl⟩
      exact hstor _ hmem

/-- Witness for claim C4 on the two-hour instance `exD4` with the all-zero
assignment, which satisfies every storage-dynamics constraint. -/
theorem storage_dynamics_invariants_witness :
    domainOk exD4 exσ4 ∧
    (∀ r ∈ storageDynamicsConstraints exD4 exσ4, r.holds) ∧
    exσ4.E 1 0 = exσ4.E (1 - 1) 0 * (1 - exD4.Storage_standing_losses 0)
      + exσ4.Qin 1 0 * exD4.Storage_charging_eff 0
      - exσ4.Qout 1 0 / exD4.Storage_discharging_eff 0 ∧
    0 ≤ exσ4.E 1 0 ∧ exσ4.E 1 0 ≤ exσ4.Storage_cap 0 ∧
    exσ4.Storage_cap 0 ≤ exD4.Storage_max_cap 0 := by
  have hdom : domainOk exD4 exσ4 := by simp [domainOk, exD4, exσ4]
  have hstor : ∀ r ∈ storageDynamicsConstraints exD4 exσ4, r.holds := by
    simp [storageDynamicsConstraints, exD4, exσ4, Storage_balance_rel,
      dayEnd, Rel.holds]
  have h := storage_dynamics_invariants exD4 exσ4 hdom hstor
  exact ⟨hdom, hstor, h.1 1 (by decide) (by decide) 0 (by decide),
    h.2 1 (by decide) 0 (by decide)⟩

/-- Claim C5: the CRF for every technology, storage type and the network is
computed as `CRF = i·(1+i)^n / ((1+i)^n − 1)` with the degenerate case
`i = 0` handled as the limit `1/n`; numerically `CRF(0, 20) = 1/20 = 0.05`
and `CRF(0.05, 20)` is within `0.0001` of `0.0802`. -/
theorem CRF_closed_form_values :
    (∀ (d : InputData) (inp : ℕ),
      CRF_tech d inp = CRF d.Interest_rate (d.Lifetime_tech inp)) ∧
    (∀ (d : InputData) (s : ℕ),
      CRF_stor d s = CRF d.Interest_rate (d.Lifetime_stor s)) ∧
    (∀ d : InputData,
      CRF_network d = CRF d.Interest_rate d.Network_lifetime) ∧
    (∀ n : ℕ, CRF 0 n = 1 / (n : ℚ)) ∧
    CRF 0 20 = 5 / 100 ∧
    CRF (1 / 20) 20
      = (1 / 20 * (1 + 1 / 20) ^ 20) / ((1 + 1 / 20) ^ 20 - 1) ∧
    |CRF (1 / 20) 20 - 802 / 10000| < 1 / 10000 := by
  refine ⟨fun d inp => rfl, fun d s => rfl, fun d => rfl,
    fun n => by simp [CRF], by norm_num [CRF], ?_, ?_⟩
  · rw [CRF]
    norm_num
  · rw [CRF]
    norm_num [abs_lt]

/-- Claim C6: the claim says the default of `BigM` is `10^5 = 100000`; the
source's default expression is Python `10^5`, i.e. bitwise XOR, which
evaluates to 15, so the registered default — also the one `InputData`
carries — is 15, not 100000 (the exponentiation typo flagged in
spec §9). -/
theorem BigM_default_is_fifteen :
    BigM_default = 15 ∧ BigM_default ≠ 100000 ∧
    ({} : InputData).BigM = 15 ∧ ({} : InputData).BigM ≠ 100000 := by
  refine ⟨rfl, by decide, ?_, ?_⟩
  · show ((BigM_default : ℕ) : ℚ) = 15
    rw [show BigM_default = 15 from rfl]
    norm_num
  · show ((BigM_default : ℕ) : ℚ) ≠ 100000
    rw [show BigM_default = 15 from rfl]
    norm_num

/-- Claim C7 is refuted at a concrete input: model construction succeeds on
data whose storage charging efficiency is 2 (outside `0 ≤ eff ≤ 1`) and
whose interest rate is negative, so no validation error guards
construction and construction does proceed on invalid data. -/
theorem createModel_accepts_invalid_parameters :
    buildSucceeds invalidEffData = true ∧
    invalidEffData.Storage_charging_eff 0 = 2 ∧
    ¬ invalidEffData.Storage_charging_eff 0 ≤ 1 ∧
    invalidEffData.Interest_rate < 0 := by
  refine ⟨?_, rfl, ?_, ?_⟩
  · simp [buildSucceeds, createModel, invalidEffData]
  · show ¬ (2 : ℚ) ≤ 1
    norm_num
  · show -(1 / 2 : ℚ) < 0
    norm_num

/-- Claim C7 amended: the program performs no pre-construction validation
and raises no validation error; the only input checking is the four
`within =` subset-membership checks made during set construction, whose
outcome alone decides success, and numeric parameters are never examined —
replacing the efficiencies, the interest rate and the loads never changes
whether construction succeeds. -/
theorem createModel_validates_only_subsets :
    (∀ d : InputData, buildSucceeds d = subsetChecksB d) ∧
    (∀ (d : InputData) (ceff deff : ℕ → ℚ) (ir : ℚ) (lo : ℕ → ℕ → ℚ),
      buildSucceeds (withNumerics d ceff deff ir lo) = buildSucceeds d) :=
  ⟨buildSucceeds_eq_subsetChecksB, fun d ceff deff ir lo =>
    (buildSucceeds_eq_subsetChecksB
      (withNumerics d ceff deff ir lo)).trans
      (buildSucceeds_eq_subsetChecksB d).symm⟩

/-- Claim C8: model building is a pure, deterministic function of its
inputs — on equal input data, `createModel` yields equal models with equal
variable and constraint counts, and the number of emitted constraints does
not depend on the assignment used to evaluate the rules. -/
theorem createModel_deterministic (d₁ d₂ : InputData)
    (σ₁ σ₂ : Assignment) (h : d₁ = d₂) :
    createModel d₁ = createModel d₂ ∧
    (createModel d₁).map numVars = (createModel d₂).map numVars ∧
    (createModel d₁).map numConstraints
      = (createModel d₂).map numConstraints ∧
    (sourceConstraints d₁ σ₁).length = (sourceConstraints d₂ σ₂).length := by
  subst h
  refine ⟨rfl, rfl, rfl, ?_⟩
  rw [length_sourceConstraints, length_sourceConstraints]

/-- Witness for claim C8: two builds from the spec §8 scenario data agree,
and the constraint count is the same under two different assignments. -/
theorem createModel_deterministic_witness :
    createModel exD1 = createModel exD1 ∧
    (createModel exD1).map numVars = (createModel exD1).map numVars ∧
    (createModel exD1).map numConstraints
      = (createModel exD1).map numConstraints ∧
    (sourceConstraints exD1 exσ1).length
      = (sourceConstraints exD1 exσ4).length :=
  createModel_deterministic exD1 exD1 exσ1 exσ4 rfl

/-- Claim C9: across the bounds of the Pareto sweep, a smaller carbon bound
never yields a smaller optimal cost — for any two sweep bounds
`ε₁ ≤ ε₂`, the ε-constraint optimum at `ε₂` is at most the optimum at
`ε₁` (weak monotonicity of the frontier). -/
theorem pareto_cost_antitone (pts : List (ℚ × ℚ)) (cmin cmax : ℚ) (n : ℕ)
    (ε₁ ε₂ : ℚ) (hε₁ : ε₁ ∈ epsValues cmin cmax n)
    (hε₂ : ε₂ ∈ epsValues cmin cmax n) (hle : ε₁ ≤ ε₂) (c₁ c₂ : ℚ)
    (h₁ : optCost pts ε₁ = (c₁ : WithTop ℚ))
    (h₂ : optCost pts ε₂ = (c₂ : WithTop ℚ)) : c₂ ≤ c₁ := by
  unfold optCost at h₁ h₂
  rw [List.minimum_eq_coe_iff] at h₁ h₂
  obtain ⟨p, hp, rfl⟩ := List.mem_map.mp h₁.1
  have hpf := List.mem_filter.mp hp
  have hp2 : p ∈ pts.filter fun q => decide (q.2 ≤ ε₂) :=
    List.mem_filter.mpr ⟨hpf.1,
      decide_eq_true (le_trans (of_decide_eq_true hpf.2) hle)⟩
  exact h₂.2 _ (List.mem_map.mpr ⟨p, hp2, rfl⟩)

/-- Witness for claim C9: a two-point sweep over candidate outcomes
`(cost 1, carbon 1)` and `(cost 2, carbon 0)` with bounds `1` and `0` —
tightening the bound from `1` to `0` raises the optimal cost from `1`
to `2`. -/
theorem pareto_cost_antitone_witness :
    (0 : ℚ) ∈ epsValues 0 1 2 ∧ (1 : ℚ) ∈ epsValues 0 1 2 ∧
    optCost [(1, 1), (2, 0)] 0 = ((2 : ℚ) : WithTop ℚ) ∧
    optCost [(1, 1), (2, 0)] 1 = ((1 : ℚ) : WithTop ℚ) ∧
    (1 : ℚ) ≤ 2 := by
  have h0 : (0 : ℚ) ∈ epsValues 0 1 2 := by
    norm_num [epsValues, List.range, List.range.loop]
  have h1 : (1 : ℚ) ∈ epsValues 0 1 2 := by
    norm_num [epsValues, List.range, List.range.loop]
  have ha : optCost [(1, 1), (2, 0)] 0 = ((2 : ℚ) : WithTop ℚ) := by
    norm_num [optCost, List.filter, List.minimum_cons,
      List.minimum_singleton]
  have hb : optCost [(1, 1), (2, 0)] 1 = ((1 : ℚ) : WithTop ℚ) := by
    norm_num [optCost, List.filter, List.minimum_cons,
      List.minimum_singleton]
  exact ⟨h0, h1, ha, hb,
    pareto_cost_antitone [(1, 1), (2, 0)] 0 1 2 0 1 h0 h1 (by norm_num)
      2 1 ha hb⟩

/-- Claim C10: set construction enforces the membership restrictions
`First_hour ⊆ Time`, `Solar_inputs ⊆ Inputs`, `Dispatchable_Tech ⊆ Inputs`
and `CHP_Tech ⊆ Inputs` — success is exactly their conjunction, so
construction fails when any is violated — while `Inputs_wo_grid` carries no
restriction: replacing it never changes the outcome, and a model is built
with `Inputs_wo_grid = [99]` not a subset of `Inputs = [0]`, while a
violated `Solar_inputs` check makes construction fail. -/
theorem no_restriction_on_Inputs_wo_grid :
    (∀ (d : InputData) (W : List ℕ),
      buildSucceeds (withInputsWoGrid d W) = buildSucceeds d) ∧
    (∀ d : InputData,
      buildSucceeds d =
        ((d.First_hour.all fun t => d.Time.contains t) &&
          (d.Solar_inputs.all fun i => d.Inputs.contains i) &&
          (d.Dispatchable_Tech.all fun i => d.Inputs.contains i) &&
          (d.CHP_Tech.all fun i => d.Inputs.contains i))) ∧
    buildSucceeds exWData = true ∧
    exWData.Inputs_wo_grid = [99] ∧
    exWData.Inputs.contains 99 = false ∧
    buildSucceeds badSolarData = false := by
  refine ⟨fun d W => (buildSucceeds_eq_subsetChecksB
      (withInputsWoGrid d W)).trans
      (buildSucceeds_eq_subsetChecksB d).symm,
    fun d => buildSucceeds_eq_subsetChecksB d, ?_, rfl, rfl, ?_⟩
  · simp [buildSucceeds, createModel, exWData]
  · simp [buildSucceeds, createModel, badSolarData]

end EnergyHub
